import Mathlib

/-!
Verification development for the svg-tools repository.

The Python sources (svgtools/svg.py, svgtools/info.py, svgtools/render.py,
svgtools/grid.py) are shallowly embedded below.  Numeric values that the code
holds as Python floats are modelled as exact rationals (`ℚ`) for the parsing
and grid layers and as real numbers (`ℝ`) for the transform-matrix algebra;
binary floating-point rounding and the non-finite literals (inf/nan) are
outside the model, and none of the verified statements depend on them.
Stateful code (the tile-swap mutation in grid.py) is modelled by explicit
state passing on an immutable element tree; Python exceptions are modelled
with `Except`.
-/

namespace SvgTools

/-- Python exception values the modelled code can raise. -/
inductive PyError where
  | keyError (key : String)
  | valueError (msg : String)
  | zeroDivisionError
deriving DecidableEq, Repr

/-- Characters Python treats as whitespace (str.strip and the regex class backslash-s). -/
def isPySpace (c : Char) : Bool :=
  c == ' ' || c == '\t' || c == '\n' || c == '\r' || c == '\x0b' || c == '\x0c'

/-- Python str.strip(): drop leading and trailing whitespace. -/
def pyStrip (s : String) : String :=
  String.mk (((s.toList.dropWhile isPySpace).reverse.dropWhile isPySpace).reverse)

/-- Numeric value of a decimal digit character. -/
def digitVal (c : Char) : Nat := c.toNat - ('0').toNat

/-- Value of a digit string read in base 10. -/
def digitsToNat (cs : List Char) : Nat := cs.foldl (fun acc c => 10 * acc + digitVal c) 0

/-- The digit content of a Python float literal, kept at the level of natural
numbers so that the text scan stays kernel-computable: the sign, the mantissa
digits (integer and fractional part concatenated) with the fractional length,
and the exponent. -/
structure FloatParts where
  neg : Bool
  mantNum : Nat
  fracLen : Nat
  expNeg : Bool
  expVal : Nat
deriving DecidableEq, Repr

/-- Exponent suffix of a Python float literal: an optional sign and at least
one digit, consuming the rest of the text. -/
def parseExponentParts (r : List Char) : Option (Bool × Nat) :=
  let signTail : Bool × List Char :=
    match r with
    | '+' :: t => (false, t)
    | '-' :: t => (true, t)
    | t => (false, t)
  let ds := signTail.2.takeWhile Char.isDigit
  if ds.length = 0 then none
  else if signTail.2.dropWhile Char.isDigit ≠ [] then none
  else some (signTail.1, digitsToNat ds)

/-- Unsigned part of a Python float literal: digits, an optional fraction, an
optional exponent; at least one mantissa digit is required. -/
def parseUnsignedParts (cs : List Char) : Option (Nat × Nat × Bool × Nat) :=
  let intPart := cs.takeWhile Char.isDigit
  let rest1 := cs.dropWhile Char.isDigit
  let fracRest : List Char × List Char :=
    match rest1 with
    | '.' :: r => (r.takeWhile Char.isDigit, r.dropWhile Char.isDigit)
    | _ => ([], rest1)
  if intPart.length + fracRest.1.length = 0 then none
  else
    let mant := digitsToNat (intPart ++ fracRest.1)
    match fracRest.2 with
    | [] => some (mant, fracRest.1.length, false, 0)
    | 'e' :: r => (parseExponentParts r).map (fun e => (mant, fracRest.1.length, e.1, e.2))
    | 'E' :: r => (parseExponentParts r).map (fun e => (mant, fracRest.1.length, e.1, e.2))
    | _ => none

/-- The full grammar of Python float(str) on finite decimal literals:
surrounding whitespace, an optional sign, then the unsigned literal. -/
def pyFloatParts (s : String) : Option FloatParts :=
  match (pyStrip s).toList with
  | '+' :: r => (parseUnsignedParts r).map (fun u => ⟨false, u.1, u.2.1, u.2.2.1, u.2.2.2⟩)
  | '-' :: r => (parseUnsignedParts r).map (fun u => ⟨true, u.1, u.2.1, u.2.2.1, u.2.2.2⟩)
  | r => (parseUnsignedParts r).map (fun u => ⟨false, u.1, u.2.1, u.2.2.1, u.2.2.2⟩)

/-- The rational value of a parsed float literal. -/
def partsToRat (p : FloatParts) : ℚ :=
  let mant : ℚ := (p.mantNum : ℚ) / (10 : ℚ) ^ p.fracLen
  let signed := if p.neg then -mant else mant
  if p.expNeg then signed / (10 : ℚ) ^ p.expVal else signed * (10 : ℚ) ^ p.expVal

/-- Model of Python float(str) on finite decimal literals, as an exact
rational.  Returns none where float() raises ValueError; binary rounding and
the non-finite literals inf/nan are outside the model. -/
def pyFloat (s : String) : Option ℚ := (pyFloatParts s).map partsToRat

/-- svg.py to_float: tolerant float parse falling back to a default
(None or an unparseable string both give the default). -/
def to_float (val : Option String) (default : ℚ) : ℚ :=
  match val with
  | none => default
  | some s => (pyFloat s).getD default

/-- Model of Python int(str): optional surrounding whitespace, an optional
sign and at least one digit.  Returns none where int() raises ValueError. -/
def pyInt (s : String) : Option Int :=
  let signTail : Int × List Char :=
    match (pyStrip s).toList with
    | '-' :: t => (-1, t)
    | '+' :: t => (1, t)
    | t => (1, t)
  if signTail.2 ≠ [] ∧ signTail.2.all Char.isDigit then
    some (signTail.1 * (digitsToNat signTail.2 : Int))
  else none

/-- Python round() on a rational: round half to even (banker's rounding). -/
def pyRound (q : ℚ) : Int :=
  let f := ⌊q⌋
  let r := q - (f : ℚ)
  if r < 1 / 2 then f
  else if 1 / 2 < r then f + 1
  else if 2 ∣ f then f else f + 1

/-- Leftmost match of the anchored regex of parse_length
(an optional sign, then digits with an optional dot, ending in a digit),
returning the matched prefix text.  The single backtracking case of the
pattern makes a trailing bare dot fall outside the match. -/
def matchNumber (s : String) : Option String :=
  let signRest : List Char × List Char :=
    match s.toList with
    | '-' :: t => (['-'], t)
    | '+' :: t => (['+'], t)
    | t => ([], t)
  let d1 := signRest.2.takeWhile Char.isDigit
  let r1 := signRest.2.dropWhile Char.isDigit
  match r1 with
  | '.' :: r2 =>
    let d2 := r2.takeWhile Char.isDigit
    if d2 ≠ [] then some (String.mk (signRest.1 ++ d1 ++ '.' :: d2))
    else if d1 ≠ [] then some (String.mk (signRest.1 ++ d1))
    else none
  | _ => if d1 ≠ [] then some (String.mk (signRest.1 ++ d1)) else none

/-- svg.py parse_length: best-effort numeric prefix of a length attribute,
else the default. -/
def parse_length (val : Option String) (default : ℚ) : ℚ :=
  match val with
  | none => default
  | some s =>
    match matchNumber s with
    | some g => to_float (some g) default
    | none => default

/-- parse_length as info.py calls it, with default None. -/
def parse_length_opt (val : Option String) : Option ℚ :=
  match val with
  | none => none
  | some s =>
    match matchNumber s with
    | some g => pyFloat g
    | none => none

/-- Maximal runs of characters not satisfying the separator predicate,
collected with an accumulator for the run being read; this is re.split on
runs of separators composed with dropping empty pieces. -/
def tokensByAux (p : Char → Bool) : List Char → List Char → List (List Char)
  | [], acc => if acc = [] then [] else [acc.reverse]
  | c :: r, acc =>
    if p c then
      if acc = [] then tokensByAux p r [] else acc.reverse :: tokensByAux p r []
    else tokensByAux p r (c :: acc)

def tokensBy (p : Char → Bool) (l : List Char) : List (List Char) :=
  tokensByAux p l []

/-- Python str.split() with no argument: whitespace-separated tokens. -/
def splitWs (s : String) : List String := (tokensBy isPySpace s.toList).map String.mk

/-- re.split on runs of spaces and commas, composed with the truthiness filter
the caller applies to drop empty pieces. -/
def splitSpaceComma (s : String) : List String :=
  (tokensBy (fun c => c == ' ' || c == ',') s.toList).map String.mk

/-- An XML element as ElementTree presents it: its tag, its attribute mapping
(keys are unique in well-formed XML, so a list of pairs read through its first
binding models the dict) and its child list. -/
inductive Element where
  | mk (tag : String) (attribs : List (String × String)) (children : List Element)

instance : Inhabited Element := ⟨.mk "" [] []⟩

def Element.tag : Element → String
  | .mk t _ _ => t

def Element.attribs : Element → List (String × String)
  | .mk _ a _ => a

def Element.children : Element → List Element
  | .mk _ _ c => c

/-- element.attrib.get(key). -/
def attribGet (e : Element) (k : String) : Option String :=
  (e.attribs.find? (fun p => p.1 == k)).map (fun p => p.2)

/-- svg.py NS: the namespace map; its only key is "svg". -/
def NS : List (String × String) := [("svg", "http://www.w3.org/2000/svg")]

/-- svg.py SVG_TAG: the brace-wrapped namespace prefix of qualified tags. -/
def SVG_TAG : String := "\x7bhttp://www.w3.org/2000/svg\x7d"

def G_TAG : String := SVG_TAG ++ "g"

def PATH_TAG : String := SVG_TAG ++ "path"

def DEFS_TAG : String := SVG_TAG ++ "defs"

def SVG_ROOT_TAG : String := SVG_TAG ++ "svg"

/-- Fallback branch of parse_viewbox: zero origin with the parsed width and
height attributes. -/
def viewboxFallback (root : Element) : ℚ × ℚ × ℚ × ℚ :=
  (0, 0, parse_length (attribGet root "width") 1, parse_length (attribGet root "height") 1)

/-- svg.py parse_viewbox: the viewBox attribute when it is a nonempty string
with four whitespace-separated numbers, else width/height, else (0,0,1,1). -/
def parse_viewbox (root : Element) : ℚ × ℚ × ℚ × ℚ :=
  match attribGet root "viewBox" with
  | some vb =>
    if vb ≠ "" then
      match (splitWs vb).map (fun v => to_float (some v) 0) with
      | [a, b, c, d] => (a, b, c, d)
      | _ => viewboxFallback root
    else viewboxFallback root
  | none => viewboxFallback root

/-- A 3x3 matrix of reals, as svg.py represents transforms (a list of three
rows of three floats). -/
@[ext]
structure Mat3 where
  m00 : ℝ
  m01 : ℝ
  m02 : ℝ
  m10 : ℝ
  m11 : ℝ
  m12 : ℝ
  m20 : ℝ
  m21 : ℝ
  m22 : ℝ

/-- svg.py IDENTITY_MATRIX. -/
noncomputable def IDENTITY_MATRIX : Mat3 :=
  ⟨1, 0, 0,
   0, 1, 0,
   0, 0, 1⟩

/-- svg.py mat_mul: the standard product of two 3x3 matrices, entry by entry
as the source writes it out. -/
noncomputable def mat_mul (a b : Mat3) : Mat3 :=
  ⟨a.m00 * b.m00 + a.m01 * b.m10 + a.m02 * b.m20,
   a.m00 * b.m01 + a.m01 * b.m11 + a.m02 * b.m21,
   a.m00 * b.m02 + a.m01 * b.m12 + a.m02 * b.m22,
   a.m10 * b.m00 + a.m11 * b.m10 + a.m12 * b.m20,
   a.m10 * b.m01 + a.m11 * b.m11 + a.m12 * b.m21,
   a.m10 * b.m02 + a.m11 * b.m12 + a.m12 * b.m22,
   a.m20 * b.m00 + a.m21 * b.m10 + a.m22 * b.m20,
   a.m20 * b.m01 + a.m21 * b.m11 + a.m22 * b.m21,
   a.m20 * b.m02 + a.m21 * b.m12 + a.m22 * b.m22⟩

/-- math.radians: degrees to radians. -/
noncomputable def radiansQ (a : ℚ) : ℝ := (a : ℝ) * Real.pi / 180

/-- Cosine of an angle given in degrees, as math.cos(math.radians(a)). -/
noncomputable def cosDeg (a : ℚ) : ℝ := Real.cos (radiansQ a)

/-- Sine of an angle given in degrees, as math.sin(math.radians(a)). -/
noncomputable def sinDeg (a : ℚ) : ℝ := Real.sin (radiansQ a)

/-- The findall over the transform-attribute regex, on fuel bounding the scan
length: each match is a maximal letter run directly followed by a
parenthesised argument text.  The scan advances past each match and otherwise
one position at a time; skipping a whole letter run that is not followed by
an opening parenthesis is sound because every suffix of the run meets the
same non-parenthesis character.  Every recursive call strictly shortens the
text, so fuel equal to the text length never runs out. -/
def findTransformCallsFuel : Nat → List Char → List (String × String)
  | 0, _ => []
  | _ + 1, [] => []
  | fuel + 1, c :: rest =>
    if c.isAlpha then
      let letters := c :: rest.takeWhile Char.isAlpha
      match rest.dropWhile Char.isAlpha with
      | '(' :: r2 =>
        match r2.dropWhile (fun x => x ≠ ')') with
        | ')' :: r3 =>
          (String.mk letters, String.mk (r2.takeWhile (fun x => x ≠ ')')))
            :: findTransformCallsFuel fuel r3
        | _ => []
      | _ => findTransformCallsFuel fuel (rest.dropWhile Char.isAlpha)
    else findTransformCallsFuel fuel rest

def findTransformCalls (cs : List Char) : List (String × String) :=
  findTransformCallsFuel cs.length cs

/-- The numeric arguments of one transform function: strip, split on
space/comma runs, drop empties, tolerant float parse defaulting to 0. -/
def parseArgs (args : String) : List ℚ :=
  (splitSpaceComma (pyStrip args)).map (fun v => to_float (some v) 0)

/-- The matrix of a single parsed transform function, when its name and
argument count are recognised (the source's if/elif chain; the else branch
that skips the function is the none case). -/
noncomputable def transformFunctionMatrix (name : String) (vals : List ℚ) : Option Mat3 :=
  if name = "matrix" ∧ vals.length = 6 then
    some ⟨((vals.getD 0 0 : ℚ) : ℝ), ((vals.getD 2 0 : ℚ) : ℝ), ((vals.getD 4 0 : ℚ) : ℝ),
          ((vals.getD 1 0 : ℚ) : ℝ), ((vals.getD 3 0 : ℚ) : ℝ), ((vals.getD 5 0 : ℚ) : ℝ),
          0, 0, 1⟩
  else if name = "translate" then
    some ⟨1, 0, ((vals.getD 0 0 : ℚ) : ℝ),
          0, 1, ((vals.getD 1 0 : ℚ) : ℝ),
          0, 0, 1⟩
  else if name = "scale" then
    some ⟨((vals.getD 0 1 : ℚ) : ℝ), 0, 0,
          0, ((vals.getD 1 (vals.getD 0 1) : ℚ) : ℝ), 0,
          0, 0, 1⟩
  else if name = "rotate" ∧ vals ≠ [] then
    let cos_a := cosDeg (vals.getD 0 0)
    let sin_a := sinDeg (vals.getD 0 0)
    let cx : ℝ := ((vals.getD 1 0 : ℚ) : ℝ)
    let cy : ℝ := ((vals.getD 2 0 : ℚ) : ℝ)
    some ⟨cos_a, -sin_a, cx - cx * cos_a + cy * sin_a,
          sin_a, cos_a, cy - cx * sin_a - cy * cos_a,
          0, 0, 1⟩
  else none

/-- svg.py parse_transform_matrix: fold the parsed transform functions left to
right into a running product starting from the identity; unrecognised
functions leave the running matrix unchanged. -/
noncomputable def parse_transform_matrix (transform_str : String) : Mat3 :=
  (findTransformCalls transform_str.toList).foldl
    (fun matrix call =>
      match transformFunctionMatrix call.1 (parseArgs call.2) with
      | some t => mat_mul matrix t
      | none => matrix)
    IDENTITY_MATRIX

/-- Application of a homogeneous 3x3 matrix to a 2D point (how the resolved
transform acts on path geometry). -/
noncomputable def applyPoint (m : Mat3) (p : ℝ × ℝ) : ℝ × ℝ :=
  (m.m00 * p.1 + m.m01 * p.2 + m.m02, m.m10 * p.1 + m.m11 * p.2 + m.m12)

/-- Python's `a or b` on two optional strings: the first when it is truthy
(present and nonempty), else the second as is. -/
def pyOr (a b : Option String) : Option String :=
  match a with
  | some s => if s ≠ "" then some s else b
  | none => b

/-- The comprehension filtering a stack of optional labels down to its truthy
entries, as the traversal yields the group trail. -/
def truthyFilter (stack : List (Option String)) : List String :=
  stack.filterMap (fun o =>
    match o with
    | some s => if s ≠ "" then some s else none
    | none => none)

/-- One item yielded by the traversal: the path node, its group trail and its
accumulated transform. -/
structure PathYield where
  node : Element
  trail : List String
  transform : Mat3

/-- svg.py iter_paths_with_groups: depth-first walk over the children of an
element, carrying the group-label stack and the accumulated transform; group
children recurse with their own transform multiplied onto the inherited one,
path children are yielded with theirs, all other children are ignored. -/
noncomputable def iter_paths_with_groups :
    List Element → List (Option String) → Mat3 → List PathYield
  | [], _, _ => []
  | child :: rest, group_stack, transform_matrix =>
    (if child.tag == G_TAG then
      let label := pyOr (attribGet child "inkscape:label") (attribGet child "id")
      let child_transform :=
        match attribGet child "transform" with
        | some t => mat_mul transform_matrix (parse_transform_matrix t)
        | none => transform_matrix
      iter_paths_with_groups child.children (group_stack ++ [label]) child_transform
    else if child.tag == PATH_TAG then
      let path_transform :=
        match attribGet child "transform" with
        | some t => mat_mul transform_matrix (parse_transform_matrix t)
        | none => transform_matrix
      [⟨child, truthyFilter group_stack, path_transform⟩]
    else [])
    ++ iter_paths_with_groups rest group_stack transform_matrix
termination_by l _ _ => sizeOf l
decreasing_by
  · cases child with
    | mk t a cs =>
      simp only [Element.children, List.cons.sizeOf_spec, Element.mk.sizeOf_spec]
      omega
  · simp only [List.cons.sizeOf_spec]
    omega

/-- The flat metadata record info.py builds for one document. -/
structure SvgInfo where
  width_attr : String
  height_attr : String
  parsed_width : Option ℚ
  parsed_height : Option ℚ
  view_box : ℚ × ℚ × ℚ × ℚ
  paths : Nat
  groups : Nat
  ids : Nat

/-- info.py collect_info: one full traversal aggregated into the path count,
the set of truthy group labels, the set of truthy path ids, the declared and
parsed dimensions, and the resolved viewBox. -/
noncomputable def collect_info (root : Element) : SvgInfo :=
  let yields := iter_paths_with_groups root.children [] IDENTITY_MATRIX
  let group_labels := (((yields.map PathYield.trail).flatten).filter (fun g => g != "")).dedup
  let id_vals := ((yields.filterMap (fun y => attribGet y.node "id")).filter (fun i => i != "")).dedup
  let width_attr := (attribGet root "width").getD "(unset)"
  let height_attr := (attribGet root "height").getD "(unset)"
  { width_attr := width_attr,
    height_attr := height_attr,
    parsed_width := parse_length_opt (if width_attr ≠ "(unset)" then some width_attr else none),
    parsed_height := parse_length_opt (if height_attr ≠ "(unset)" then some height_attr else none),
    view_box := parse_viewbox root,
    paths := yields.length,
    groups := group_labels.length,
    ids := id_vals.length }

/-- Python str.split(sep) for a one-character separator, keeping empty
pieces. -/
def splitOnCharAux (sep : Char) : List Char → List Char → List (List Char)
  | [], acc => [acc.reverse]
  | c :: r, acc =>
    if c = sep then acc.reverse :: splitOnCharAux sep r []
    else splitOnCharAux sep r (c :: acc)

def splitOnChar (sep : Char) (s : String) : List String :=
  (splitOnCharAux sep s.toList []).map String.mk

/-- Python kv.split(sep, 1) when sep occurs in kv: the text before the first
occurrence and all of the text after it. -/
def splitFirstAt (sep : Char) : List Char → Option (List Char × List Char)
  | [] => none
  | c :: r =>
    if c = sep then some ([], r)
    else (splitFirstAt sep r).map (fun p => (c :: p.1, p.2))

/-- svg.py parse_style: split the style text on semicolons, keep the entries
holding a colon, split each on its first colon and strip both sides.  The
resulting pairs model the dict the source builds (later keys overwrite, so
lookups read the last binding). -/
def parse_style (style_str : String) : List (String × String) :=
  (splitOnChar ';' style_str).filterMap (fun kv =>
    match splitFirstAt ':' kv.toList with
    | some p => some (pyStrip (String.mk p.1), pyStrip (String.mk p.2))
    | none => none)

/-- Dict lookup on the parsed style pairs: the last binding wins, matching
Python dict insertion semantics. -/
def styleGet (style : List (String × String)) (k : String) : Option String :=
  ((style.filter (fun p => p.1 == k)).getLast?).map (fun p => p.2)

/-- The style mapping of one node: its style attribute (defaulting to the
empty string) parsed by parse_style. -/
def style_map_of (node : Element) : List (String × String) :=
  parse_style ((attribGet node "style").getD "")

/-- node.attrib.get(key, style_map.get(key)): the attribute when present,
else the style entry. -/
def attrOrStyle (node : Element) (k : String) : Option String :=
  match attribGet node k with
  | some a => some a
  | none => styleGet (style_map_of node) k

/-- render.py effective fill: attribute over style, with a falsy result
coalesced to the literal "none". -/
def resolved_fill (node : Element) : String :=
  match attrOrStyle node "fill" with
  | some s => if s ≠ "" then s else "none"
  | none => "none"

/-- render.py effective stroke: attribute over style, with a falsy result
coalesced to the literal "none". -/
def resolved_stroke (node : Element) : String :=
  match attrOrStyle node "stroke" with
  | some s => if s ≠ "" then s else "none"
  | none => "none"

/-- render.py effective fill opacity: tolerant float parse of the attribute
or style value, defaulting to 1. -/
def resolved_fill_opacity (node : Element) : ℚ :=
  to_float (attrOrStyle node "fill-opacity") 1

/-- render.py effective stroke opacity. -/
def resolved_stroke_opacity (node : Element) : ℚ :=
  to_float (attrOrStyle node "stroke-opacity") 1

/-- render.py effective stroke width. -/
def resolved_stroke_width (node : Element) : ℚ :=
  to_float (attrOrStyle node "stroke-width") 1

/-- The paint value render.py hands to the plotting backend: a named colour
with an alpha (to_rgba is external and kept opaque), the all-zero rgba tuple,
or the backend's literal "none". -/
inductive Paint where
  | rgba (color : String) (alpha : ℚ)
  | transparentZeros
  | noneLiteral
deriving DecidableEq, Repr

/-- render.py face colour: to_rgba(fill, fill_opacity) unless the effective
fill is "none", in which case the fully transparent tuple (0,0,0,0). -/
def facecolor (node : Element) : Paint :=
  if resolved_fill node ≠ "none" then .rgba (resolved_fill node) (resolved_fill_opacity node)
  else .transparentZeros

/-- render.py edge colour: to_rgba(stroke, stroke_opacity) unless the
effective stroke is "none", in which case the literal "none". -/
def edgecolor (node : Element) : Paint :=
  if resolved_stroke node ≠ "none" then .rgba (resolved_stroke node) (resolved_stroke_opacity node)
  else .noneLiteral

/-- render.py line width: the effective stroke width, forced to zero when the
effective stroke is "none". -/
def linewidth (node : Element) : ℚ :=
  if resolved_stroke node ≠ "none" then resolved_stroke_width node else 0

/-- The traversal items the render loop of plot_svg actually draws: the loop
continues past any yielded path whose d attribute is absent or empty. -/
noncomputable def rendered_paths (root : Element) : List PathYield :=
  (iter_paths_with_groups root.children [] IDENTITY_MATRIX).filter
    (fun y =>
      match attribGet y.node "d" with
      | some d => d != ""
      | none => false)

/-- grid.py split_defs_and_body: partition the root's children into defs
elements and everything else, keeping document order. -/
def split_defs_and_body (root : Element) : List Element × List Element :=
  (root.children.filter (fun c => c.tag == DEFS_TAG),
   root.children.filter (fun c => c.tag != DEFS_TAG))

/-- One cell group as grid.py make_cell_group builds it: the outer translate
offset, the row/column tags, the inner normalising translate and scale, and a
deep copy of the body content (the identity on immutable trees).  Attribute
values the source renders into strings are kept as numbers. -/
structure GridCell where
  tx : ℚ
  ty : ℚ
  row : Nat
  col : Nat
  inner_tx : ℚ
  inner_ty : ℚ
  scale_x : ℚ
  scale_y : ℚ
  content : List Element

def make_cell_group (body : List Element) (tx ty vb_min_x vb_min_y scale_x scale_y : ℚ)
    (row col : Nat) : GridCell :=
  { tx := tx, ty := ty, row := row, col := col,
    inner_tx := -vb_min_x, inner_ty := -vb_min_y,
    scale_x := scale_x, scale_y := scale_y,
    content := body }

/-- The document create_grid_svg would write: the sized root with its viewBox
(the source formats the string "0 0 w h"; the four numbers are kept), the
preserved metadata, the defs content copied once, and the row-major cells. -/
structure GridDoc where
  width : ℚ
  height : ℚ
  view_box : ℚ × ℚ × ℚ × ℚ
  version : String
  preserve_aspect_ratio : Option String
  defs_content : List Element
  cells : List GridCell

/-- Lines 37-83 of grid.py create_grid_svg, after the validation and with the
namespace registration set aside: resolve the viewBox and cell size, compute
the scales (1 when the viewBox extent is falsy, that is zero), split off the
defs, and build the new root with one cell group per (row, col) in row-major
order. -/
def create_grid_core (root : Element) (rows cols : Int) : GridDoc :=
  let vb := parse_viewbox root
  let vb_min_x := vb.1
  let vb_min_y := vb.2.1
  let vb_width := vb.2.2.1
  let vb_height := vb.2.2.2
  let cell_width := parse_length (attribGet root "width") vb_width
  let cell_height := parse_length (attribGet root "height") vb_height
  let scale_x := if vb_width ≠ 0 then cell_width / vb_width else 1
  let scale_y := if vb_height ≠ 0 then cell_height / vb_height else 1
  let db := split_defs_and_body root
  { width := cell_width * (cols : ℚ),
    height := cell_height * (rows : ℚ),
    view_box := (0, 0, cell_width * (cols : ℚ), cell_height * (rows : ℚ)),
    version := (attribGet root "version").getD "1.1",
    preserve_aspect_ratio := attribGet root "preserveAspectRatio",
    defs_content := (db.1.map Element.children).flatten,
    cells :=
      ((List.range rows.toNat).map (fun (r : Nat) =>
        (List.range cols.toNat).map (fun (c : Nat) =>
          make_cell_group db.2 ((c : ℚ) * cell_width) ((r : ℚ) * cell_height)
            vb_min_x vb_min_y scale_x scale_y r c))).flatten }

/-- grid.py create_grid_svg on a parsed document: the rows/cols validation,
then (the pure computations of lines 37-49 being total) the namespace
registration of line 52 looks up the missing key "xlink" in NS and raises
KeyError before the output document is built or written. -/
def create_grid_svg (root : Element) (rows cols : Int) : Except PyError GridDoc :=
  if rows < 1 ∨ cols < 1 then .error (.valueError "rows and cols must be >= 1")
  else
    match NS.lookup "xlink" with
    | none => .error (.keyError "xlink")
    | some _ => .ok (create_grid_core root rows cols)

/-- Characters of the two capture groups of the tile-coordinate regex of
move_tile: minus, digit or dot. -/
def numGroupChar (c : Char) : Bool := c == '-' || c.isDigit || c == '.'

/-- Characters of the separator class of that regex: space or comma. -/
def sepChar (c : Char) : Bool := c == ' ' || c == ','

/-- Literal-prefix match, returning the remainder on success. -/
def dropPrefixChars : List Char → List Char → Option (List Char)
  | [], cs => some cs
  | p :: ps, c :: cs => if p == c then dropPrefixChars ps cs else none
  | _ :: _, [] => none

/-- One attempted match of the regex
translate backslash-( backslash-s* group1 [ ,]+ group2 backslash-s* backslash-)
at the start of the text; the character classes of consecutive pieces are
disjoint, so maximal munch agrees with the regex engine. -/
def tryTranslateAt (cs : List Char) : Option (String × String) :=
  match dropPrefixChars "translate(".toList cs with
  | none => none
  | some r0 =>
    let r1 := r0.dropWhile isPySpace
    let g1 := r1.takeWhile numGroupChar
    if g1 = [] then none
    else
      let r2 := r1.dropWhile numGroupChar
      if r2.takeWhile sepChar = [] then none
      else
        let r3 := r2.dropWhile sepChar
        let g2 := r3.takeWhile numGroupChar
        if g2 = [] then none
        else
          match ((r3.dropWhile numGroupChar).dropWhile isPySpace) with
          | ')' :: _ => some (String.mk g1, String.mk g2)
          | _ => none

/-- re.search for that regex: the leftmost position where a match starts. -/
def searchTranslate : List Char → Option (String × String)
  | [] => none
  | c :: rest =>
    match tryTranslateAt (c :: rest) with
    | some r => some r
    | none => searchTranslate rest

/-- grid.py parse_transform_to_rc: read the outer translate offset out of the
transform attribute and invert it to a (row, col) pair by rounding; float()
on a malformed capture raises, as does a zero grid size. -/
def parse_transform_to_rc (node : Element) (grid_size : ℚ) :
    Except PyError (Option (Int × Int)) :=
  let tr := (attribGet node "transform").getD ""
  match searchTranslate tr.toList with
  | none => .ok none
  | some g =>
    match pyFloat g.1 with
    | none => .error (.valueError ("could not convert string to float: " ++ g.1))
    | some tx =>
      match pyFloat g.2 with
      | none => .error (.valueError ("could not convert string to float: " ++ g.2))
      | some ty =>
        if grid_size = 0 then .error .zeroDivisionError
        else .ok (some (pyRound (ty / grid_size), pyRound (tx / grid_size)))

/-- grid.py match_cell: compare by the explicit data-row/data-col tags when
both are present (int() raising on malformed values, with Python's
short-circuit evaluation), else by the inverted translate offset. -/
def match_cell (grid_size : ℚ) (node : Element) (r c : Int) : Except PyError Bool :=
  match attribGet node "data-row", attribGet node "data-col" with
  | some r_attr, some c_attr =>
    match pyInt r_attr with
    | none => .error (.valueError ("invalid literal for int() with base 10: " ++ r_attr))
    | some ri =>
      if ri = r then
        match pyInt c_attr with
        | none => .error (.valueError ("invalid literal for int() with base 10: " ++ c_attr))
        | some ci => .ok (decide (ci = c))
      else .ok false
  | _, _ =>
    match parse_transform_to_rc node grid_size with
    | .error e => .error e
    | .ok rc => .ok (rc == some (r, c))

/-- next(n for n in cells if match_cell(n, r, c)): the first indexed cell that
matches, with exceptions from match_cell propagating. -/
def find_cell (grid_size : ℚ) (cells : List (Nat × Element)) (r c : Int) :
    Except PyError (Option (Nat × Element)) :=
  match cells with
  | [] => .ok none
  | ic :: rest =>
    match match_cell grid_size ic.2 r c with
    | .error e => .error e
    | .ok true => .ok (some ic)
    | .ok false => find_cell grid_size rest r c

/-- Replace the child list of the last element of a list (the source indexes
the inner group as children[-1]). -/
def mapLast (f : Element → Element) : List Element → List Element
  | [] => []
  | [x] => [f x]
  | x :: y :: rest => x :: mapLast f (y :: rest)

/-- Overwrite, inside the root, the grandchild list held by the last child of
the cell at the given child index. -/
def set_inner_children (root : Element) (idx : Nat) (content : List Element) : Element :=
  let cell := root.children.getD idx default
  let cell2 : Element :=
    .mk cell.tag cell.attribs
      (mapLast (fun inner => .mk inner.tag inner.attribs content) cell.children)
  .mk root.tag root.attribs (root.children.set idx cell2)

/-- Lines 91-146 of grid.py move_tile, after the namespace registration is set
aside: locate the source and destination cells among the g-tagged children,
check both have an inner group as their last child, then clear the
destination inner group and append deep copies of the source inner group's
children.  The Python code holds object references, so when source and
destination are the same cell the children are read from the tree AFTER the
clear; the explicit state passing below reproduces that aliasing. -/
def move_tile_core (root : Element) (grid_size : ℚ)
    (src_row src_col dst_row dst_col : Int) : Except PyError Element :=
  let cells := (root.children.enum).filter (fun p => p.2.tag == G_TAG)
  match find_cell grid_size cells src_row src_col with
  | .error e => .error e
  | .ok srcFound =>
    match find_cell grid_size cells dst_row dst_col with
    | .error e => .error e
    | .ok dstFound =>
      match srcFound with
      | none => .error (.valueError
          ("Source cell (" ++ toString src_row ++ "," ++ toString src_col ++ ") not found"))
      | some src =>
        match dstFound with
        | none => .error (.valueError
            ("Destination cell (" ++ toString dst_row ++ "," ++ toString dst_col ++ ") not found"))
        | some dst =>
          if dst.2.children.isEmpty then
            .error (.valueError "Destination cell has no inner group to replace")
          else if (dst.2.children.getLastD default).tag ≠ G_TAG then
            .error (.valueError "Unexpected destination structure; expected inner group")
          else if src.2.children.isEmpty then
            .error (.valueError "Source cell has no inner group to copy")
          else if (src.2.children.getLastD default).tag ≠ G_TAG then
            .error (.valueError "Unexpected source structure; expected inner group")
          else
            let root1 := set_inner_children root dst.1 []
            let content :=
              ((root1.children.getD src.1 default).children.getLastD default).children
            .ok (set_inner_children root1 dst.1 content)

/-- grid.py move_tile on a parsed document: the namespace registration at line
89 looks up the missing key "xlink" in NS and raises KeyError before the file
is even parsed, for every argument combination. -/
def move_tile (root : Element) (grid_size : ℚ)
    (src_row src_col dst_row dst_col : Int) : Except PyError Element :=
  match NS.lookup "xlink" with
  | none => .error (.keyError "xlink")
  | some _ => move_tile_core root grid_size src_row src_col dst_row dst_col

/-- The bottom-row invariant of the transform algebra: the last row of a
homogeneous matrix is (0, 0, 1). -/
def bottomRowOk (m : Mat3) : Prop := m.m20 = 0 ∧ m.m21 = 0 ∧ m.m22 = 1

/-- Modelled from the spec's words, for comparison against the code: the
claimed precedence rule for the effective fill, namely the explicit XML
attribute if present, else the style mapping entry, else the default
"none". -/
def spec_fill_precedence (node : Element) : String :=
  match attribGet node "fill" with
  | some v => v
  | none =>
    match styleGet (style_map_of node) "fill" with
    | some v => v
    | none => "none"

/- Concrete documents the theorems below evaluate the embedded code on. -/

/-- A drawable path with geometry and an id. -/
def pathA : Element := .mk PATH_TAG [("d", "M 0 0 L 1 1"), ("id", "p0")] []

/-- A source document with viewBox 0 0 10 10 and width and height 10. -/
def doc10 : Element :=
  .mk SVG_ROOT_TAG [("viewBox", "0 0 10 10"), ("width", "10"), ("height", "10")] [pathA]

/-- One grid cell as create_grid_svg would serialise it: the outer g carrying
the translate offset and the data-row/data-col tags, holding the inner
normalising group with the content. -/
def cellF (r c : Nat) : Element :=
  .mk G_TAG
    [("transform", "translate(" ++ toString (c * 10) ++ "," ++ toString (r * 10) ++ ")"),
     ("data-row", toString r), ("data-col", toString c)]
    [.mk G_TAG [("transform", "translate(0,0) scale(1.0,1.0)")] [pathA]]

/-- A 2 by 3 grid document with cell size 10, each cell holding one path. -/
def gridDocF : Element :=
  .mk SVG_ROOT_TAG [("viewBox", "0 0 30 20"), ("width", "30"), ("height", "20")]
    [cellF 0 0, cellF 0 1, cellF 0 2, cellF 1 0, cellF 1 1, cellF 1 2]

/-- gridDocF with the inner group of cell (0,0) emptied: what the self-copy
of move_tile actually produces. -/
def gridDocFCleared : Element :=
  .mk SVG_ROOT_TAG [("viewBox", "0 0 30 20"), ("width", "30"), ("height", "20")]
    [.mk G_TAG
        [("transform", "translate(0,0)"), ("data-row", "0"), ("data-col", "0")]
        [.mk G_TAG [("transform", "translate(0,0) scale(1.0,1.0)")] []],
     cellF 0 1, cellF 0 2, cellF 1 0, cellF 1 1, cellF 1 2]

/-- A grid document whose destination cell (0,1) lacks the inner group. -/
def gridDocBad : Element :=
  .mk SVG_ROOT_TAG [("viewBox", "0 0 30 20"), ("width", "30"), ("height", "20")]
    [cellF 0 0,
     .mk G_TAG [("transform", "translate(10,0)"), ("data-row", "0"), ("data-col", "1")] []]

/-- A path element carrying no d attribute. -/
def pathNoD : Element := .mk PATH_TAG [("id", "nod")] []

/-- A document whose only body element is a path with no d attribute. -/
def docNoD : Element := .mk SVG_ROOT_TAG [("width", "10"), ("height", "10")] [pathNoD]

/-- A path whose fill attribute is the empty string while its style sets
fill to red. -/
def cexNode : Element := .mk PATH_TAG [("d", "M 0 0"), ("fill", ""), ("style", "fill:red")] []

/-- A path inside a translated group, itself translated. -/
def fixturePath : Element := .mk PATH_TAG [("d", "M0 0"), ("transform", "translate(0,5)")] []

def fixtureG : Element := .mk G_TAG [("transform", "translate(5,0)")] [fixturePath]

/-! Helper lemmas shared by the claim theorems. -/

/-- Evaluating to_float through a successful parts-level parse. -/
theorem to_float_eval {s : String} {p : FloatParts} (d : ℚ) (h : pyFloatParts s = some p) :
    to_float (some s) d = partsToRat p := by
  simp [to_float, pyFloat, h]

/-- Evaluating to_float on a plain natural-number literal. -/
theorem to_float_nat (s : String) (n : Nat) (d : ℚ)
    (h : pyFloatParts s = some ⟨false, n, 0, false, 0⟩) :
    to_float (some s) d = n := by
  simp [to_float, pyFloat, h, partsToRat]

theorem bot_id : bottomRowOk IDENTITY_MATRIX := ⟨rfl, rfl, rfl⟩

theorem bot_mul {a b : Mat3} (ha : bottomRowOk a) (hb : bottomRowOk b) :
    bottomRowOk (mat_mul a b) := by
  obtain ⟨ha1, ha2, ha3⟩ := ha
  obtain ⟨hb1, hb2, hb3⟩ := hb
  refine ⟨?_, ?_, ?_⟩ <;> simp [mat_mul, ha1, ha2, ha3, hb1, hb2, hb3]

theorem bot_token {name : String} {vals : List ℚ} {t : Mat3}
    (h : transformFunctionMatrix name vals = some t) : bottomRowOk t := by
  unfold transformFunctionMatrix at h
  split_ifs at h <;> (cases h; exact ⟨rfl, rfl, rfl⟩)

theorem bot_fold (calls : List (String × String)) :
    ∀ m : Mat3, bottomRowOk m →
      bottomRowOk (calls.foldl
        (fun matrix call =>
          match transformFunctionMatrix call.1 (parseArgs call.2) with
          | some t => mat_mul matrix t
          | none => matrix) m) := by
  induction calls with
  | nil => intro m hm; exact hm
  | cons c rest ih =>
    intro m hm
    simp only [List.foldl]
    apply ih
    cases hc : transformFunctionMatrix c.1 (parseArgs c.2) with
    | none => simpa [hc] using hm
    | some t =>
      simp only [hc]
      exact bot_mul hm (bot_token hc)

theorem bot_parse (s : String) : bottomRowOk (parse_transform_matrix s) := by
  unfold parse_transform_matrix
  exact bot_fold _ IDENTITY_MATRIX bot_id

theorem bot_iter : ∀ (els : List Element) (stack : List (Option String)) (m : Mat3),
    bottomRowOk m → ∀ y ∈ iter_paths_with_groups els stack m, bottomRowOk y.transform := by
  intro els stack m
  induction els, stack, m using iter_paths_with_groups.induct with
  | case1 stack m =>
    intro _ y hy
    simp [iter_paths_with_groups] at hy
  | case2 child rest stack m ih1 ih2 =>
    intro hm y hy
    rw [iter_paths_with_groups] at hy
    rcases List.mem_append.mp hy with hy1 | hy2
    · split at hy1
      · rename_i hg
        have hok : bottomRowOk (match attribGet child "transform" with
            | some t => mat_mul m (parse_transform_matrix t)
            | none => m) := by
          cases attribGet child "transform" with
          | some t => exact bot_mul hm (bot_parse t)
          | none => exact hm
        exact ih1 hg hok y hy1
      · split at hy1
        · rw [List.mem_singleton] at hy1
          subst hy1
          cases hat : attribGet child "transform" with
          | some t => simp only [hat]; exact bot_mul hm (bot_parse t)
          | none => simp only [hat]; exact hm
        · simp at hy1
    · exact ih2 hm y hy2

theorem cosDeg_90 : cosDeg 90 = 0 := by
  have h : radiansQ 90 = Real.pi / 2 := by
    unfold radiansQ
    push_cast
    ring
  rw [cosDeg, h, Real.cos_pi_div_two]

theorem sinDeg_90 : sinDeg 90 = 1 := by
  have h : radiansQ 90 = Real.pi / 2 := by
    unfold radiansQ
    push_cast
    ring
  rw [sinDeg, h, Real.sin_pi_div_two]

/-- Nodes exercising the style-resolution precedence in the witness below. -/
def nodeW1 : Element :=
  .mk PATH_TAG [("fill", "blue"), ("style", "fill:red"), ("stroke", "none"), ("stroke-width", "7")] []

def nodeW2 : Element := .mk PATH_TAG [("style", "stroke:green")] []

def nodeW3 : Element := .mk PATH_TAG [("fill", "none")] []

def nodeW5 : Element := .mk PATH_TAG [("stroke", "")] []

/-! The claim theorems. -/

/-- Claim C2: with the rows/cols validation passed, create_grid_svg raises
KeyError at the namespace registration because NS lacks the key "xlink", and
move_tile raises the same KeyError unconditionally; neither operation ever
returns an output document. -/
theorem grid_namespace_keyerror :
    (∀ (root : Element) (rows cols : Int), 1 ≤ rows → 1 ≤ cols →
      create_grid_svg root rows cols = .error (.keyError "xlink"))
  ∧ (∀ (root : Element) (grid_size : ℚ) (sr sc dr dc : Int),
      move_tile root grid_size sr sc dr dc = .error (.keyError "xlink")) := by
  constructor
  · intro root rows cols hr hc
    rw [create_grid_svg, if_neg (by omega)]
    rfl
  · intro root gs sr sc dr dc
    rfl

theorem grid_namespace_keyerror_witness :
    create_grid_svg doc10 2 3 = .error (.keyError "xlink")
  ∧ move_tile gridDocF 10 0 0 1 2 = .error (.keyError "xlink") :=
  ⟨grid_namespace_keyerror.1 doc10 2 3 (by decide) (by decide),
   grid_namespace_keyerror.2 gridDocF 10 0 0 1 2⟩

/-- Claim C1 (code-bug evidence): on the claimed source document,
create_grid_svg fails with the KeyError before writing anything; the grid
construction it would otherwise perform (create_grid_core, lines 37-83)
produces the claimed viewBox 0 0 30 20 and the six row-major cells at the
claimed translate offsets. -/
theorem create_grid_claimed_layout :
    create_grid_svg doc10 2 3 = .error (.keyError "xlink")
  ∧ (create_grid_core doc10 2 3).view_box = (0, 0, 30, 20)
  ∧ (create_grid_core doc10 2 3).cells.map (fun cell => (cell.tx, cell.ty))
      = [(0, 0), (10, 0), (20, 0), (0, 10), (10, 10), (20, 10)]
  ∧ (create_grid_core doc10 2 3).cells.map (fun cell => (cell.row, cell.col))
      = [(0, 0), (0, 1), (0, 2), (1, 0), (1, 1), (1, 2)] := by
  have hvb : parse_viewbox doc10 = (0, 0, 10, 10) := by
    have hattr : attribGet doc10 "viewBox" = some "0 0 10 10" := by decide
    have hsp : splitWs "0 0 10 10" = ["0", "0", "10", "10"] := by decide
    rw [parse_viewbox, hattr]
    simp +decide [hsp, to_float_nat "0" 0 0 (by decide), to_float_nat "10" 10 0 (by decide)]
  have hw : attribGet doc10 "width" = some "10" := by decide
  have hh : attribGet doc10 "height" = some "10" := by decide
  have hlen : ∀ d : ℚ, parse_length (some "10") d = 10 := by
    intro d
    have hm : matchNumber "10" = some "10" := by decide
    simp [parse_length, hm, to_float_nat "10" 10 d (by decide)]
  have hsplit : split_defs_and_body doc10 = ([], [pathA]) := rfl
  have hr2 : List.range (Int.toNat 2) = [0, 1] := by decide
  have hr3 : List.range (Int.toNat 3) = [0, 1, 2] := by decide
  refine ⟨?_, ?_, ?_, ?_⟩
  · rw [create_grid_svg, if_neg (by decide)]
    rfl
  all_goals
    norm_num +decide [create_grid_core, hvb, hw, hh, hlen, hsplit, hr2, hr3,
      make_cell_group, List.flatten]

/-- Claim C3 (code-bug evidence): move_tile with equal source and destination
raises the KeyError before touching the document; and the tile-swap logic
itself (move_tile_core, lines 91-146) is not idempotent on a self-copy: the
aliased inner group is cleared before it is read, so the copy empties the
cell that held one path. -/
theorem move_tile_self_copy :
    move_tile gridDocF 10 0 0 0 0 = .error (.keyError "xlink")
  ∧ move_tile_core gridDocF 10 0 0 0 0 = .ok gridDocFCleared
  ∧ ((gridDocF.children.getD 0 default).children.getLastD default).children = [pathA]
  ∧ ((gridDocFCleared.children.getD 0 default).children.getLastD default).children = [] :=
  ⟨rfl, rfl, rfl, rfl⟩

/-- Claim C4 (code-bug evidence): move_tile on a coordinate absent from a 2
by 3 grid raises the KeyError first; the tile-swap logic itself fails with
the not-found ValueError before any mutation, and a cell lacking the inner
group structure likewise fails before any mutation. -/
theorem move_tile_missing_cell :
    move_tile gridDocF 10 5 5 1 2 = .error (.keyError "xlink")
  ∧ move_tile_core gridDocF 10 5 5 1 2 = .error (.valueError "Source cell (5,5) not found")
  ∧ move_tile_core gridDocBad 10 0 0 0 1
      = .error (.valueError "Destination cell has no inner group to replace") :=
  ⟨rfl, rfl, rfl⟩

/-- Claim C5 counterexample: the traversal yields a path with no d attribute
(it is the only yield of docNoD) and the metadata layer counts it, so the
claim that such a path is skipped by the traversal and left out of the path
count fails; only the render loop drops it. -/
theorem traversal_skips_dless_path_cex :
    (iter_paths_with_groups docNoD.children [] IDENTITY_MATRIX).map PathYield.node = [pathNoD]
  ∧ attribGet pathNoD "d" = none
  ∧ (collect_info docNoD).paths = 1
  ∧ rendered_paths docNoD = [] := by
  refine ⟨?_, by decide, ?_, ?_⟩
  · simp [docNoD, pathNoD, iter_paths_with_groups, attribGet, Element.tag,
      Element.children, Element.attribs, G_TAG, PATH_TAG, SVG_TAG]
  · simp [collect_info, docNoD, pathNoD, iter_paths_with_groups, attribGet, Element.tag,
      Element.children, Element.attribs, G_TAG, PATH_TAG, SVG_TAG]
  · simp [rendered_paths, docNoD, pathNoD, iter_paths_with_groups, attribGet, Element.tag,
      Element.children, Element.attribs, G_TAG, PATH_TAG, SVG_TAG]

/-- Claim C5 as amended: every path child is yielded by the traversal
whether or not it has a d attribute, and so is counted in the metadata path
count; the skip happens only in the render loop of plot_svg. -/
theorem traversal_yields_paths_without_d :
    (∀ (p : Element) (rest : List Element) (stack : List (Option String)) (m : Mat3),
      p.tag = PATH_TAG →
      iter_paths_with_groups (p :: rest) stack m
        = ⟨p, truthyFilter stack,
            match attribGet p "transform" with
            | some t => mat_mul m (parse_transform_matrix t)
            | none => m⟩ :: iter_paths_with_groups rest stack m)
  ∧ (collect_info docNoD).paths = 1
  ∧ rendered_paths docNoD = [] := by
  refine ⟨?_, ?_, ?_⟩
  · intro p rest stack m hp
    rw [iter_paths_with_groups]
    have hg : (p.tag == G_TAG) = false := by
      simp [hp, G_TAG, PATH_TAG, SVG_TAG]
    have hq : (p.tag == PATH_TAG) = true := by simp [hp]
    simp only [hg, hq, Bool.false_eq_true, if_false, if_true, List.singleton_append]
  · simp [collect_info, docNoD, pathNoD, iter_paths_with_groups, attribGet, Element.tag,
      Element.children, Element.attribs, G_TAG, PATH_TAG, SVG_TAG]
  · simp [rendered_paths, docNoD, pathNoD, iter_paths_with_groups, attribGet, Element.tag,
      Element.children, Element.attribs, G_TAG, PATH_TAG, SVG_TAG]

theorem traversal_yields_paths_without_d_witness :
    iter_paths_with_groups [pathNoD] [] IDENTITY_MATRIX
      = ⟨pathNoD, truthyFilter [],
          match attribGet pathNoD "transform" with
          | some t => mat_mul IDENTITY_MATRIX (parse_transform_matrix t)
          | none => IDENTITY_MATRIX⟩ :: iter_paths_with_groups [] [] IDENTITY_MATRIX :=
  traversal_yields_paths_without_d.1 pathNoD [] [] IDENTITY_MATRIX rfl

/-- Claim C6: parse_transform_matrix composes the parsed functions left to
right through mat_mul, and the matrix of "translate(10,20) scale(2)" maps
the point (0,0) to (10,20) and the point (1,1) to (12,22). -/
theorem parse_transform_left_to_right :
    parse_transform_matrix "translate(10,20) scale(2)"
      = mat_mul (mat_mul IDENTITY_MATRIX
          (⟨1, 0, 10, 0, 1, 20, 0, 0, 1⟩ : Mat3)) (⟨2, 0, 0, 0, 2, 0, 0, 0, 1⟩ : Mat3)
  ∧ applyPoint (parse_transform_matrix "translate(10,20) scale(2)") (0, 0) = (10, 20)
  ∧ applyPoint (parse_transform_matrix "translate(10,20) scale(2)") (1, 1) = (12, 22) := by
  have htok : findTransformCalls "translate(10,20) scale(2)".toList
      = [("translate", "10,20"), ("scale", "2")] := by decide
  have ha : parseArgs "10,20" = [10, 20] := by
    have hsp : splitSpaceComma (pyStrip "10,20") = ["10", "20"] := by decide
    simp [parseArgs, hsp, to_float_nat "10" 10 0 (by decide), to_float_nat "20" 20 0 (by decide)]
  have hb : parseArgs "2" = [2] := by
    have hsp : splitSpaceComma (pyStrip "2") = ["2"] := by decide
    simp [parseArgs, hsp, to_float_nat "2" 2 0 (by decide)]
  have hm : parse_transform_matrix "translate(10,20) scale(2)"
      = ⟨2, 0, 10, 0, 2, 20, 0, 0, 1⟩ := by
    unfold parse_transform_matrix
    rw [htok]
    simp only [List.foldl, ha, hb]
    norm_num +decide [transformFunctionMatrix, Mat3.ext_iff, mat_mul, IDENTITY_MATRIX, List.getD]
  refine ⟨?_, ?_, ?_⟩
  · rw [hm]
    norm_num [Mat3.ext_iff, mat_mul, IDENTITY_MATRIX]
  · rw [hm]
    norm_num [applyPoint]
  · rw [hm]
    norm_num [applyPoint]

/-- Claim C7: the single matrix the parser builds for rotate(angle,cx,cy)
equals the product of the translation to (cx,cy), the rotation about the
origin and the translation back, and rotate(90,0,0) maps (1,0) to (0,1). -/
theorem rotate_closed_form :
    (∀ a cx cy : ℚ,
      transformFunctionMatrix "rotate" [a, cx, cy]
        = some (mat_mul (mat_mul
            (⟨1, 0, (cx : ℝ), 0, 1, (cy : ℝ), 0, 0, 1⟩ : Mat3)
            (⟨cosDeg a, -sinDeg a, 0, sinDeg a, cosDeg a, 0, 0, 0, 1⟩ : Mat3))
            (⟨1, 0, -(cx : ℝ), 0, 1, -(cy : ℝ), 0, 0, 1⟩ : Mat3)))
  ∧ applyPoint (parse_transform_matrix "rotate(90,0,0)") (1, 0) = (0, 1) := by
  constructor
  · intro a cx cy
    have h1 : ¬("rotate" = "matrix" ∧ ([a, cx, cy] : List ℚ).length = 6) := by simp
    have h2 : ("rotate" : String) ≠ "translate" := by decide
    have h3 : ("rotate" : String) ≠ "scale" := by decide
    have h4 : "rotate" = "rotate" ∧ ([a, cx, cy] : List ℚ) ≠ [] := by simp
    rw [transformFunctionMatrix, if_neg h1, if_neg h2, if_neg h3, if_pos h4]
    refine congrArg some ?_
    simp only [List.getD_cons_zero, List.getD_cons_succ]
    ext <;> simp [mat_mul] <;> ring
  · have htok : findTransformCalls "rotate(90,0,0)".toList = [("rotate", "90,0,0")] := by decide
    have ha : parseArgs "90,0,0" = [90, 0, 0] := by
      have hsp : splitSpaceComma (pyStrip "90,0,0") = ["90", "0", "0"] := by decide
      simp [parseArgs, hsp, to_float_nat "90" 90 0 (by decide), to_float_nat "0" 0 0 (by decide)]
    unfold parse_transform_matrix
    rw [htok]
    simp only [List.foldl, ha]
    norm_num +decide [transformFunctionMatrix, List.getD, applyPoint, mat_mul, IDENTITY_MATRIX,
      cosDeg_90, sinDeg_90]

/-- Claim C8: the transform of a yielded path is the inherited matrix (which
already includes the enclosing group's transform) multiplied by the path's
own transform; for a group translate(5,0) holding a path translate(0,5) the
effective transform maps (0,0) to (5,5). -/
theorem nested_transform_accumulation :
    (∀ (m : Mat3) (stack : List (Option String)),
      iter_paths_with_groups [fixtureG] stack m
        = [⟨fixturePath, truthyFilter (stack ++ [none]),
            mat_mul (mat_mul m (parse_transform_matrix "translate(5,0)"))
              (parse_transform_matrix "translate(0,5)")⟩])
  ∧ (iter_paths_with_groups [fixtureG] [] IDENTITY_MATRIX).map
      (fun y => applyPoint y.transform (0, 0)) = [(5, 5)] := by
  have hpart1 : ∀ (m : Mat3) (stack : List (Option String)),
      iter_paths_with_groups [fixtureG] stack m
        = [⟨fixturePath, truthyFilter (stack ++ [none]),
            mat_mul (mat_mul m (parse_transform_matrix "translate(5,0)"))
              (parse_transform_matrix "translate(0,5)")⟩] := by
    intro m stack
    simp [iter_paths_with_groups, fixtureG, fixturePath, attribGet, Element.tag,
      Element.children, Element.attribs, G_TAG, PATH_TAG, SVG_TAG, pyOr]
  refine ⟨hpart1, ?_⟩
  rw [hpart1]
  have h50 : parse_transform_matrix "translate(5,0)" = ⟨1, 0, 5, 0, 1, 0, 0, 0, 1⟩ := by
    have htok : findTransformCalls "translate(5,0)".toList = [("translate", "5,0")] := by decide
    have ha : parseArgs "5,0" = [5, 0] := by
      have hsp : splitSpaceComma (pyStrip "5,0") = ["5", "0"] := by decide
      simp [parseArgs, hsp, to_float_nat "5" 5 0 (by decide), to_float_nat "0" 0 0 (by decide)]
    unfold parse_transform_matrix
    rw [htok]
    simp only [List.foldl, ha]
    norm_num +decide [transformFunctionMatrix, Mat3.ext_iff, mat_mul, IDENTITY_MATRIX, List.getD]
  have h05 : parse_transform_matrix "translate(0,5)" = ⟨1, 0, 0, 0, 1, 5, 0, 0, 1⟩ := by
    have htok : findTransformCalls "translate(0,5)".toList = [("translate", "0,5")] := by decide
    have ha : parseArgs "0,5" = [0, 5] := by
      have hsp : splitSpaceComma (pyStrip "0,5") = ["0", "5"] := by decide
      simp [parseArgs, hsp, to_float_nat "0" 0 0 (by decide), to_float_nat "5" 5 0 (by decide)]
    unfold parse_transform_matrix
    rw [htok]
    simp only [List.foldl, ha]
    norm_num +decide [transformFunctionMatrix, Mat3.ext_iff, mat_mul, IDENTITY_MATRIX, List.getD]
  rw [h50, h05]
  norm_num [applyPoint, mat_mul, IDENTITY_MATRIX]

/-- Claim C9: the identity, every parse of a transform attribute, every
product of two bottom-row-correct matrices, and every transform yielded by a
traversal entered with a bottom-row-correct matrix all have bottom row
(0, 0, 1). -/
theorem bottom_row_invariant :
    bottomRowOk IDENTITY_MATRIX
  ∧ (∀ s : String, bottomRowOk (parse_transform_matrix s))
  ∧ (∀ a b : Mat3, bottomRowOk a → bottomRowOk b → bottomRowOk (mat_mul a b))
  ∧ (∀ (els : List Element) (stack : List (Option String)) (m : Mat3),
      bottomRowOk m → ∀ y ∈ iter_paths_with_groups els stack m, bottomRowOk y.transform) :=
  ⟨bot_id, bot_parse, fun _ _ ha hb => bot_mul ha hb, bot_iter⟩

theorem bottom_row_invariant_witness :
    bottomRowOk (mat_mul IDENTITY_MATRIX IDENTITY_MATRIX)
  ∧ bottomRowOk (PathYield.mk pathNoD (truthyFilter []) IDENTITY_MATRIX).transform := by
  constructor
  · exact bottom_row_invariant.2.2.1 IDENTITY_MATRIX IDENTITY_MATRIX ⟨rfl, rfl, rfl⟩ ⟨rfl, rfl, rfl⟩
  · exact bottom_row_invariant.2.2.2 [pathNoD] [] IDENTITY_MATRIX ⟨rfl, rfl, rfl⟩
      (PathYield.mk pathNoD (truthyFilter []) IDENTITY_MATRIX)
      (by simp [iter_paths_with_groups, pathNoD, attribGet, Element.tag, Element.attribs,
        Element.children, G_TAG, PATH_TAG, SVG_TAG])

/-- Claim C10 counterexample: on a path whose fill attribute is the empty
string while its style sets fill to red, the claimed
attribute-over-style-over-default precedence gives the empty string, but the
code coalesces every falsy fill to "none"; neither the attribute value nor
the style value survives. -/
theorem style_precedence_cex :
    attribGet cexNode "fill" = some ""
  ∧ styleGet (style_map_of cexNode) "fill" = some "red"
  ∧ spec_fill_precedence cexNode = ""
  ∧ resolved_fill cexNode = "none"
  ∧ ("none" : String) ≠ "" ∧ ("none" : String) ≠ "red" := by decide

/-- Claim C10 as amended: the attribute wins over the style entry whenever
the attribute is present; absent and empty values coalesce to "none" for
fill and stroke; the numeric components default to 1; an effective fill of
"none" gives the fully transparent tuple whatever the opacity, and an
effective stroke of "none" gives zero line width whatever the declared
width. -/
theorem style_precedence_amended :
    (∀ (node : Element) (k v : String), attribGet node k = some v → attrOrStyle node k = some v)
  ∧ (∀ (node : Element) (k : String), attribGet node k = none →
      attrOrStyle node k = styleGet (style_map_of node) k)
  ∧ (∀ (node : Element) (v : String), attrOrStyle node "fill" = some v → v ≠ "" →
      resolved_fill node = v)
  ∧ (∀ node : Element, attrOrStyle node "fill" = none → resolved_fill node = "none")
  ∧ (∀ node : Element, attrOrStyle node "fill" = some "" → resolved_fill node = "none")
  ∧ (∀ (node : Element) (v : String), attrOrStyle node "stroke" = some v → v ≠ "" →
      resolved_stroke node = v)
  ∧ (∀ node : Element, attrOrStyle node "stroke" = none → resolved_stroke node = "none")
  ∧ (∀ node : Element, attrOrStyle node "stroke" = some "" → resolved_stroke node = "none")
  ∧ (∀ node : Element, attrOrStyle node "fill-opacity" = none → resolved_fill_opacity node = 1)
  ∧ (∀ node : Element, attrOrStyle node "stroke-opacity" = none →
      resolved_stroke_opacity node = 1)
  ∧ (∀ node : Element, attrOrStyle node "stroke-width" = none → resolved_stroke_width node = 1)
  ∧ (∀ node : Element, resolved_fill node = "none" → facecolor node = Paint.transparentZeros)
  ∧ (∀ node : Element, resolved_stroke node = "none" → linewidth node = 0) := by
  refine ⟨?_, ?_, ?_, ?_, ?_, ?_, ?_, ?_, ?_, ?_, ?_, ?_, ?_⟩
  · intro node k v h
    simp [attrOrStyle, h]
  · intro node k h
    simp [attrOrStyle, h]
  · intro node v h hv
    simp [resolved_fill, h, hv]
  · intro node h
    simp [resolved_fill, h]
  · intro node h
    simp [resolved_fill, h]
  · intro node v h hv
    simp [resolved_stroke, h, hv]
  · intro node h
    simp [resolved_stroke, h]
  · intro node h
    simp [resolved_stroke, h]
  · intro node h
    simp [resolved_fill_opacity, h, to_float]
  · intro node h
    simp [resolved_stroke_opacity, h, to_float]
  · intro node h
    simp [resolved_stroke_width, h, to_float]
  · intro node h
    simp [facecolor, h]
  · intro node h
    simp [linewidth, h]

theorem style_precedence_amended_witness :
    attrOrStyle nodeW1 "fill" = some "blue"
  ∧ attrOrStyle nodeW2 "stroke" = styleGet (style_map_of nodeW2) "stroke"
  ∧ resolved_fill nodeW1 = "blue"
  ∧ resolved_fill nodeW2 = "none"
  ∧ resolved_fill cexNode = "none"
  ∧ resolved_stroke nodeW2 = "green"
  ∧ resolved_stroke nodeW3 = "none"
  ∧ resolved_stroke nodeW5 = "none"
  ∧ resolved_fill_opacity nodeW2 = 1
  ∧ resolved_stroke_opacity nodeW2 = 1
  ∧ resolved_stroke_width nodeW2 = 1
  ∧ facecolor nodeW3 = Paint.transparentZeros
  ∧ linewidth nodeW1 = 0 := by
  obtain ⟨h1, h2, h3, h4, h5, h6, h7, h8, h9, h10, h11, h12, h13⟩ := style_precedence_amended
  exact ⟨h1 nodeW1 "fill" "blue" (by decide),
    h2 nodeW2 "stroke" (by decide),
    h3 nodeW1 "blue" (by decide) (by decide),
    h4 nodeW2 (by decide),
    h5 cexNode (by decide),
    h6 nodeW2 "green" (by decide) (by decide),
    h7 nodeW3 (by decide),
    h8 nodeW5 (by decide),
    h9 nodeW2 (by decide),
    h10 nodeW2 (by decide),
    h11 nodeW2 (by decide),
    h12 nodeW3 (by decide),
    h13 nodeW1 (by decide)⟩

end SvgTools
